import Mathlib

/-!
Verification of the sync orchestration engine of `local_db_remote`.

The Rust sources are shallowly embedded:
* strings manipulated by the code (SQL queries, process stdout, tokens of
  the chain-id environment list) are `List Char`, with the Rust string
  operations (`split`, `lines`, `trim`, `to_lowercase`, `contains`,
  `str::parse::<u64>`) reimplemented on lists;
* the manifest file is `Option Manifest` (`none` = file absent), and the
  manifest functions of `src/manifest.rs` are state-passing functions that
  return the new file contents exactly where the Rust code calls
  `write_manifest` / `fs::write`;
* subprocess invocations (`sqlite3`, `gzip`, the external CLI binary) are
  oracles: a function from the command text to the spawn/exit/stdout
  outcome, mirroring how the code consumes `std::process::Command` output;
* the per-network orchestration of `src/sync/orchestrator.rs` is a state
  machine over injected step behaviours, mirroring the trait-object
  runtime of `src/sync/runtime.rs`.
-/

namespace LocalDbRemote

/-- Rust strings are embedded as lists of characters. -/
abbrev RStr := List Char

/-- `listStartsWith pat l` : does `l` start with `pat`? (Rust `str::starts_with`
on the character level, used to implement substring containment.) -/
def listStartsWith : RStr → RStr → Bool
  | [], _ => true
  | _ :: _, [] => false
  | p :: ps, c :: cs => p == c && listStartsWith ps cs

/-- `listContains pat l` : does `pat` occur as a contiguous substring of `l`?
(Rust `str::contains`.) -/
def listContains (pat : RStr) : RStr → Bool
  | [] => listStartsWith pat []
  | c :: rest => listStartsWith pat (c :: rest) || listContains pat rest

/-- Rust `str::split(sep)`: splitting an empty string yields one empty piece,
`n` separators yield `n+1` pieces. -/
def splitChar (sep : Char) : RStr → List RStr
  | [] => [[]]
  | c :: rest =>
    let r := splitChar sep rest
    if c = sep then [] :: r
    else
      match r with
      | [] => [[c]]
      | h :: t => (c :: h) :: t

/-- Strip one trailing carriage return, as Rust `str::lines` does per line. -/
def stripCR (l : RStr) : RStr :=
  if l.getLast? = some '\r' then l.dropLast else l

/-- Rust `str::lines`: split on newline, drop the final empty piece produced
by a trailing newline, strip one trailing CR per line. -/
def rustLines (s : RStr) : List RStr :=
  let parts := splitChar '\n' s
  let parts := match parts.getLast? with
    | some [] => parts.dropLast
    | _ => parts
  parts.map stripCR

/-- Rust `str::trim` (restricted to the ASCII whitespace the code meets). -/
def trimChars (l : RStr) : RStr :=
  ((l.dropWhile Char.isWhitespace).reverse.dropWhile Char.isWhitespace).reverse

/-- Rust `str::parse::<u64>`: optional leading plus sign, at least one digit,
all digits, rejects values that overflow a `u64`. -/
def parseU64 (l : RStr) : Option Nat :=
  let ds := match l with
    | '+' :: rest => rest
    | _ => l
  if ds.isEmpty then none
  else if !ds.all Char.isDigit then none
  else
    let v := ds.foldl (fun acc c => acc * 10 + (c.toNat - 48)) 0
    if v < 2 ^ 64 then some v else none

/-! ## Manifest data model (`src/manifest.rs`) -/

/-- Per-network manifest record (`ManifestEntry` in `src/manifest.rs`). -/
structure ManifestEntry where
  dump_url : String
  dump_timestamp : String
  seed_generation : Nat
deriving DecidableEq, Repr

/-- `ManifestEntry::DEFAULT_SEED_GENERATION`. -/
def DEFAULT_SEED_GENERATION : Nat := 1

/-- The manifest: schema version plus a `BTreeMap<NetworkId, ManifestEntry>`,
embedded as an association list ordered by key. -/
structure Manifest where
  schema_version : Nat
  networks : List (Nat × ManifestEntry)
deriving DecidableEq, Repr

/-- `Manifest::CURRENT_SCHEMA_VERSION`. -/
def CURRENT_SCHEMA_VERSION : Nat := 2

/-- `Manifest::new()`: current schema version, no networks. -/
def Manifest.new : Manifest :=
  { schema_version := CURRENT_SCHEMA_VERSION, networks := [] }

/-- `BTreeMap::get`. -/
def findEntry (k : Nat) : List (Nat × ManifestEntry) → Option ManifestEntry
  | [] => none
  | (k1, e) :: rest => if k = k1 then some e else findEntry k rest

/-- `BTreeMap::insert`: upsert keeping the keys ordered. -/
def insertEntry (k : Nat) (v : ManifestEntry) :
    List (Nat × ManifestEntry) → List (Nat × ManifestEntry)
  | [] => [(k, v)]
  | (k1, e) :: rest =>
    if k < k1 then (k, v) :: (k1, e) :: rest
    else if k = k1 then (k, v) :: rest
    else (k1, e) :: insertEntry k v rest

/-- `load_manifest`: an absent file yields `Manifest::new()`; an existing file
is parsed and returned verbatim. -/
def load_manifest : Option Manifest → Manifest
  | none => Manifest.new
  | some m => m

/-- The seed generation `update_manifest` keeps for a network:
`networks.get(&network_id).map(|e| e.seed_generation).unwrap_or(DEFAULT)`. -/
def seedGenerationFor (network_id : Nat)
    (networks : List (Nat × ManifestEntry)) : Nat :=
  match findEntry network_id networks with
  | some entry => entry.seed_generation
  | none => DEFAULT_SEED_GENERATION

/-- `update_manifest` (`src/manifest.rs` lines 133-163): load, reject a schema
version different from the current constant before writing, preserve the
existing seed generation (default 1 for a new network), upsert, rewrite.
`Except.ok m2` means the file now holds `m2`; the only error exit happens
before the write, leaving the file unchanged. -/
def update_manifest (mfile : Option Manifest) (network_id : Nat)
    (dump_url : String) (timestamp : String) : Except String Manifest :=
  let m := load_manifest mfile
  if m.schema_version ≠ CURRENT_SCHEMA_VERSION then
    .error ("unsupported manifest schema version " ++ toString m.schema_version
      ++ "; expected " ++ toString CURRENT_SCHEMA_VERSION)
  else
    let entry : ManifestEntry :=
      { dump_url := dump_url, dump_timestamp := timestamp,
        seed_generation := seedGenerationFor network_id m.networks }
    .ok { m with networks := insertEntry network_id entry m.networks }

/-- Result record of `bump_schema_version`. -/
structure SchemaVersionBump where
  previous : Nat
  next : Nat
deriving DecidableEq, Repr

/-- Result record of `bump_seed_generation`. -/
structure SeedGenerationBump where
  network_id : Nat
  previous : Nat
  next : Nat
deriving DecidableEq, Repr

/-- The source file holding `pub const CURRENT_SCHEMA_VERSION: u32 = ...;`,
abstracted to the outcomes `update_schema_version_constant` distinguishes:
unreadable file, marker not found (or semicolon missing), unparseable value,
or a parsed constant value. -/
inductive SrcConst where
  | missingFile
  | missingMarker
  | badValue
  | value (v : Nat)
deriving DecidableEq, Repr

/-- `update_schema_version_constant` (`src/manifest.rs` lines 224-269): read
the source, locate and parse the constant, bail if it differs from
`expected_current`, otherwise write it back as `next`. Returns the new
source state on success; every error exit leaves the source unwritten. -/
def update_schema_version_constant (src : SrcConst) (expected_current next : Nat) :
    Except String SrcConst :=
  match src with
  | .missingFile => .error "failed to read manifest source"
  | .missingMarker => .error "CURRENT_SCHEMA_VERSION constant not found"
  | .badValue => .error "failed to parse CURRENT_SCHEMA_VERSION value"
  | .value current =>
    if current ≠ expected_current then
      .error ("CURRENT_SCHEMA_VERSION constant (" ++ toString current
        ++ ") does not match manifest schema_version ("
        ++ toString expected_current ++ ")")
    else .ok (.value next)

/-- `bump_schema_version` (`src/manifest.rs` lines 191-200): load the
manifest, increment its schema version, WRITE THE MANIFEST, and only then
try to update the source constant. The returned pair carries the manifest
file and source state after the call, on error as well as on success. -/
def bump_schema_version (mfile : Option Manifest) (src : SrcConst) :
    Except String SchemaVersionBump × Option Manifest × SrcConst :=
  let m := load_manifest mfile
  let previous := m.schema_version
  let next := previous + 1
  let mfile2 : Option Manifest := some { m with schema_version := next }
  match update_schema_version_constant src previous next with
  | .error e => (.error e, mfile2, src)
  | .ok src2 => (.ok { previous := previous, next := next }, mfile2, src2)

/-- `bump_seed_generation` (`src/manifest.rs` lines 202-222): load, fail with
a not-found error before writing when the network is absent, otherwise
increment that entry and rewrite the file. The second component is the
manifest file after the call. -/
def bump_seed_generation (mfile : Option Manifest) (network_id : Nat) :
    Except String SeedGenerationBump × Option Manifest :=
  let m := load_manifest mfile
  match findEntry network_id m.networks with
  | none =>
    (.error ("network id " ++ toString network_id ++ " not found in manifest"),
      mfile)
  | some entry =>
    let previous := entry.seed_generation
    let next := previous + 1
    let m2 := { m with
      networks := insertEntry network_id { entry with seed_generation := next }
        m.networks }
    (.ok { network_id := network_id, previous := previous, next := next },
      some m2)

/-! ## Snapshot planner (`src/database.rs`) -/

/-- Outcome of one `std::process::Command` invocation as the code consumes it:
either spawning failed (`Err` from `.output()` / `.status()`), or the process
ran with an exit status and captured stdout. -/
inductive CmdOut where
  | ioErr
  | out (success : Bool) (stdout : RStr)
deriving Repr

/-- The snapshot database as seen through the `sqlite3` CLI boundary:
whether the db file exists, and an oracle mapping the SQL text passed to
`sqlite3` to the invocation outcome. -/
structure DbEnv where
  dbExists : Bool
  run : RStr → CmdOut

/-- The SQL single-quote character. -/
def sqChar : Char := Char.ofNat 39

/-- The `sqlite_master` probe for the `sync_status` table
(the literal contains SQL single quotes, spliced in via `sqChar`). -/
def masterQuery : RStr :=
  "SELECT 1 FROM sqlite_master WHERE type=".toList ++ sqChar :: "table".toList
    ++ sqChar :: " AND name=".toList ++ sqChar :: "sync_status".toList
    ++ sqChar :: " LIMIT 1;".toList

/-- `PRAGMA table_info('sync_status');` (single quotes via `sqChar`). -/
def pragmaQuery : RStr :=
  "PRAGMA table_info(".toList ++ sqChar :: "sync_status".toList
    ++ sqChar :: ");".toList

/-- `str::replace('"', "\"\"")` inside `quote_identifier`. -/
def escapeQuotes : RStr → RStr
  | [] => []
  | c :: rest =>
    if c = '"' then '"' :: '"' :: escapeQuotes rest else c :: escapeQuotes rest

/-- `quote_identifier`: wrap in double quotes, doubling embedded quotes. -/
def quote_identifier (l : RStr) : RStr :=
  '"' :: (escapeQuotes l ++ ['"'])

/-- The descending-order query issued for the chosen column. -/
def selectQuery (col : RStr) : RStr :=
  "SELECT ".toList ++ quote_identifier col
    ++ " FROM sync_status ORDER BY ".toList ++ quote_identifier col
    ++ " DESC LIMIT 1;".toList

/-- One line of `PRAGMA table_info` output: split on the configured separator,
skip the column id, keep the column name; lines with fewer than two fields
are dropped (`filter_map` with two `parts.next()?`). -/
def parsePragmaLine (line : RStr) : Option RStr :=
  match splitChar '|' line with
  | _ :: name :: _ => some name
  | _ => none

/-- Rust `char::to_lowercase` restricted to the ASCII names the code meets. -/
def toLowerRStr (l : RStr) : RStr := l.map Char.toLower

/-- `name.to_lowercase().contains("block")`. -/
def nameContainsBlock (name : RStr) : Bool :=
  listContains ("block".toList) (toLowerRStr name)

/-- Column selection from the pragma stdout: first parsed column name, in
line order, whose lowercase form contains `block`. -/
def selectBlockColumn (pragmaStdout : RStr) : Option RStr :=
  ((rustLines pragmaStdout).filterMap parsePragmaLine).find? nameContainsBlock

/-- `get_last_synced_block` (`src/database.rs` lines 228-313): absent file,
spawn failure, unsuccessful exit, missing table, missing block column and
unparseable query output all degrade to `none`. -/
def get_last_synced_block (env : DbEnv) : Option Nat :=
  if env.dbExists = false then none
  else
    match env.run masterQuery with
    | CmdOut.ioErr => none
    | CmdOut.out ok1 out1 =>
      if (ok1 && !(trimChars out1).isEmpty) = false then none
      else
        match env.run pragmaQuery with
        | CmdOut.ioErr => none
        | CmdOut.out ok2 out2 =>
          if ok2 = false then none
          else
            match selectBlockColumn out2 with
            | none => none
            | some column_name =>
              match env.run (selectQuery column_name) with
              | CmdOut.ioErr => none
              | CmdOut.out ok3 out3 =>
                if ok3 = false then none
                else parseU64 (trimChars out3)

/-- The per-network sync plan (`SyncPlan` in `src/database.rs`). -/
structure SyncPlan where
  db_path : String
  dump_path : String
  last_synced_block : Option Nat
  next_start_block : Option Nat
deriving DecidableEq, Repr

/-- `plan_sync` (`src/database.rs` lines 148-158). -/
def plan_sync (env : DbEnv) (db_path dump_path : String) : SyncPlan :=
  let last_synced_block := get_last_synced_block env
  { db_path := db_path, dump_path := dump_path,
    last_synced_block := last_synced_block,
    next_start_block := last_synced_block.map (· + 1) }

/-- A row of `PRAGMA table_info` output: column id text, name, declared type. -/
abbrev PragmaRow := RStr × RStr × RStr

/-- Render one pragma row exactly as the `-separator |` CLI output does. -/
def rawPragmaLine (r : PragmaRow) : RStr :=
  r.1 ++ '|' :: (r.2.1 ++ '|' :: r.2.2)

/-- Render pragma stdout: one `cid|name|type` line per row, newline-terminated. -/
def renderPragma (rows : List PragmaRow) : RStr :=
  (rows.map (fun r => rawPragmaLine r ++ ['\n'])).flatten

/-- A pragma field that renders and reparses cleanly: free of the newline,
carriage-return and separator characters. -/
def goodField (l : RStr) : Prop := '\n' ∉ l ∧ '\r' ∉ l ∧ '|' ∉ l

instance (l : RStr) : Decidable (goodField l) := by
  unfold goodField
  infer_instance

/-- A snapshot database environment: `ex` = db file exists, `hasTable` = the
`sqlite_master` probe finds `sync_status`, `rows` = the pragma rows, `ds` =
the stdout of the descending-order value query (whichever column is selected,
its last value prints as `ds`). -/
def envFor (ex hasTable : Bool) (rows : List PragmaRow) (ds : RStr) : DbEnv :=
  { dbExists := ex,
    run := fun q =>
      if q = masterQuery then
        CmdOut.out true (if hasTable then ['1', '\n'] else [])
      else if q = pragmaQuery then CmdOut.out true (renderPragma rows)
      else CmdOut.out true ds }

/-! ## Snapshot finalization (`finalize_database`, `src/database.rs`) -/

/-- A file on disk during finalize: absent, created but not completely
written, or completely written. -/
inductive FileSt where
  | absent
  | halfWritten
  | complete
deriving DecidableEq, Repr, Fintype

/-- The four files `finalize_database` touches for one network: the working
db, the intermediate `.sql` export, the temporary `.sql.gz.tmp` archive and
the `.sql.gz` archive at the dump path. -/
structure FinState where
  db : Bool
  sql : FileSt
  tmp : FileSt
  dump : FileSt
deriving DecidableEq, Repr, Fintype

/-- Outcomes of the two subprocesses finalize spawns: `none` = the spawn
itself failed (`.status()` returned `Err`), `some b` = the process ran and
`b` is `status.success()`. -/
structure FinOracle where
  sqliteSpawn : Option Bool
  gzipSpawn : Option Bool
deriving DecidableEq, Repr, Fintype

/-- `finalize_database` (`src/database.rs` lines 90-146) together with the
inlined `export_sql_dump` (lines 187-218), as a state trace. Returns
(success, final state, the list of states the filesystem passes through,
in order). Filesystem primitives (`remove_file`, `File::create`, `rename`)
are taken to succeed; the oracles decide the subprocess outcomes.
`File::create` truncates, leaving a present-but-incomplete file. -/
def finalize_database (o : FinOracle) (s0 : FinState) :
    Bool × FinState × List FinState :=
  if s0.db = false then (true, s0, [s0])
  else
    -- export_sql_dump: remove a stale sql dump, create the sql file, spawn
    -- `sqlite3 .dump` into it
    let s1 := if s0.sql ≠ FileSt.absent then { s0 with sql := FileSt.absent } else s0
    let s2 := { s1 with sql := FileSt.halfWritten }
    match o.sqliteSpawn with
    | none => (false, s2, [s0, s1, s2])
    | some false =>
      let s3 := { s2 with sql := FileSt.absent }
      (false, s3, [s0, s1, s2, s3])
    | some true =>
      let s3 := { s2 with sql := FileSt.complete }
      -- compression: create the temp dump, spawn `gzip -c` into it
      let s4 := { s3 with tmp := FileSt.halfWritten }
      match o.gzipSpawn with
      | none => (false, s4, [s0, s1, s2, s3, s4])
      | some false =>
        let s5 := { s4 with tmp := FileSt.absent }
        (false, s5, [s0, s1, s2, s3, s4, s5])
      | some true =>
        let s5 := { s4 with tmp := FileSt.complete }
        -- remove the old dump, then rename the temp dump into place
        let s6 := if s5.dump ≠ FileSt.absent then { s5 with dump := FileSt.absent } else s5
        let s7 := { s6 with dump := FileSt.complete, tmp := FileSt.absent }
        let s8 := { s7 with sql := FileSt.absent }
        let s9 := { s8 with db := false }
        (true, s9, [s0, s1, s2, s3, s4, s5, s6, s7, s8, s9])

/-! ## External CLI invocation (`run_cli_sync`, `src/cli.rs`) -/

/-- `RunCliSyncOptions` (`src/cli.rs`). -/
structure RunCliSyncOptions where
  cli_binary : String
  db_path : String
  chain_id : Nat
  api_token : Option String
  repo_commit : String
  start_block : Option Nat
  end_block : Option Nat
deriving DecidableEq, Repr

/-- The optional trailing `--start-block` / `--end-block` arguments. -/
def startEndArgs (o : RunCliSyncOptions) : List String :=
  (match o.start_block with
    | some s => ["--start-block", toString s]
    | none => []) ++
  (match o.end_block with
    | some e => ["--end-block", toString e]
    | none => [])

/-- The argument vector handed to the external binary (`src/cli.rs`
lines 39-60). -/
def buildCliArgs (o : RunCliSyncOptions) (tok : String) : List String :=
  ["local-db", "sync", "--db-path", o.db_path, "--chain-id",
    toString o.chain_id, "--repo-commit", o.repo_commit, "--api-token", tok]
  ++ startEndArgs o

/-- `Iterator::position`: index of the first element equal to `target`. -/
def position (target : String) : List String → Option Nat
  | [] => none
  | a :: rest => if a = target then some 0 else (position target rest).map (· + 1)

/-- Write `v` at index `n`; out of bounds is a no-op (`get_mut` returning
`None`). -/
def setAt : List String → Nat → String → List String
  | [], _, _ => []
  | _ :: rest, 0, v => v :: rest
  | a :: rest, n + 1, v => a :: setAt rest n v

/-- The redaction of `src/cli.rs` lines 62-67: clone the argument vector and
overwrite the element after the first occurrence of `--api-token` with
`***`. -/
def redactArgs (args : List String) : List String :=
  match position "--api-token" args with
  | none => args
  | some index => setAt args (index + 1) "***"

/-- `run_cli_sync` (`src/cli.rs` lines 19-85) up to the subprocess boundary:
fails when no token is supplied; otherwise returns the executed argument
vector and the logged (redacted) argument vector that is printed. -/
def run_cli_sync (o : RunCliSyncOptions) : Except String (List String × List String) :=
  match o.api_token with
  | none => .error ("no API token provided for chain " ++ toString o.chain_id)
  | some api_token =>
    let args := buildCliArgs o api_token
    .ok (args, redactArgs args)

/-- The logged argument vector of an invocation (empty when the invocation
fails before logging). -/
def loggedArgsOf (o : RunCliSyncOptions) : List String :=
  match run_cli_sync o with
  | .ok (_, logArgs) => logArgs
  | .error _ => []

/-- Every argument string printed in the log line other than the slot that
holds the (redacted) token value. -/
def otherArgStrings (o : RunCliSyncOptions) : List String :=
  ["local-db", "sync", "--db-path", o.db_path, "--chain-id",
    toString o.chain_id, "--repo-commit", o.repo_commit, "--api-token", "***"]
  ++ startEndArgs o

/-! ## Sync orchestration (`src/sync/orchestrator.rs`, `src/sync/runtime.rs`) -/

/-- The observable effect of one injected per-network service call: whether
it returned `Ok`, and whether the network's working db file exists after the
call. -/
structure StepEffect where
  ok : Bool
  dbAfter : Bool
deriving DecidableEq, Repr

/-- The behaviour of the injected runtime services for one network:
`prepare_database`, `plan_sync`, the CLI invocation and
`finalize_database`. -/
structure ChainBehavior where
  prepare : StepEffect
  plan : StepEffect
  invoke : StepEffect
  finalize : StepEffect
deriving DecidableEq, Repr

/-- Does some step of the prepare/plan/invoke/finalize sub-machine fail? -/
def chainFails (b : ChainBehavior) : Bool :=
  !b.prepare.ok || !b.plan.ok || !b.invoke.ok || !b.finalize.ok

/-- Orchestrator-visible filesystem and trace state: the manifest file
contents, which networks' working db files exist, which networks have been
entered (`sync_single_chain` called) and which have been committed to the
manifest, in order. -/
structure OrchState where
  manifest : Manifest
  dbFiles : Nat → Bool
  processed : List Nat
  committed : List Nat

/-- Point update of the db-file map. -/
def setDbFile (chain : Nat) (v : Bool) (f : Nat → Bool) : Nat → Bool :=
  fun c => if c = chain then v else f c

/-- The cleanup step of `sync_single_chain`: remove the working db file if it
exists. -/
def removeDbIfExists (chain : Nat) (st : OrchState) : OrchState :=
  { st with dbFiles := setDbFile chain false st.dbFiles }

/-- `RELEASE_DOWNLOAD_URL_TEMPLATE.replace("{file}", dump_file_name)`. -/
def dumpUrlFor (chain : Nat) : String :=
  "https://github.com/findolor/local_db_remote/releases/latest/download/"
    ++ toString chain ++ ".sql.gz"

/-- `sync_single_chain` (`src/sync/orchestrator.rs` lines 103-173): prepare,
then a closure running plan / invoke / finalize; on a closure failure the
working db file is removed before the error propagates; a prepare failure
propagates immediately (before the cleanup is reached); on success the db
file is removed and the manifest entry committed. Each step's `dbAfter`
effect is applied whether or not the step fails. -/
def syncSingleChain (b : ChainBehavior) (chain : Nat) (ts : String)
    (st : OrchState) : OrchState × Bool :=
  let stA := { st with
                processed := st.processed ++ [chain],
                dbFiles := setDbFile chain b.prepare.dbAfter st.dbFiles }
  if b.prepare.ok = false then (stA, false)
  else
    let stB := { stA with dbFiles := setDbFile chain b.plan.dbAfter stA.dbFiles }
    if b.plan.ok = false then (removeDbIfExists chain stB, false)
    else
      let stC := { stB with dbFiles := setDbFile chain b.invoke.dbAfter stB.dbFiles }
      if b.invoke.ok = false then (removeDbIfExists chain stC, false)
      else
        let stD := { stC with dbFiles := setDbFile chain b.finalize.dbAfter stC.dbFiles }
        if b.finalize.ok = false then (removeDbIfExists chain stD, false)
        else
          let stE := removeDbIfExists chain stD
          match update_manifest (some stE.manifest) chain (dumpUrlFor chain) ts with
          | .ok m2 =>
            ({ stE with manifest := m2, committed := stE.committed ++ [chain] }, true)
          | .error _ => (stE, false)

/-- The per-network loop of `run_sync_with` (`src/sync/orchestrator.rs`
lines 79-89): strictly sequential, aborting the whole run on the first
failing network. -/
def runChains (B : Nat → ChainBehavior) (tsOf : Nat → String) :
    List Nat → OrchState → OrchState × Bool
  | [], st => (st, true)
  | c :: rest, st =>
    match syncSingleChain (B c) c (tsOf c) st with
    | (st1, true) => runChains B tsOf rest st1
    | (st1, false) => (st1, false)

/-- `BTreeSet<u64>::insert` on a strictly ascending list. -/
def insertSortedNat (x : Nat) : List Nat → List Nat
  | [] => [x]
  | y :: ys =>
    if x < y then x :: y :: ys
    else if x = y then y :: ys
    else y :: insertSortedNat x ys

/-- Collect the effective network set exactly as `run_sync_with` does:
a `BTreeSet` seeded from the manifest keys, then the env-declared ids, then
the config-declared ids. -/
def collectChainIds (manifestKeys envIds cfgIds : List Nat) : List Nat :=
  let s := manifestKeys.foldl (fun acc k => insertSortedNat k acc) []
  let s := envIds.foldl (fun acc k => insertSortedNat k acc) s
  cfgIds.foldl (fun acc k => insertSortedNat k acc) s

/-- The keys of the manifest's network map. -/
def manifestKeys (m : Manifest) : List Nat := m.networks.map (·.1)

/-- `parse_chain_ids_from_env` token loop (`src/sync/orchestrator.rs`
lines 219-232): trim each comma-separated token, skip empties, parse as u64
or fail naming the offending token. -/
def parseChainTokens : List RStr → Except String (List Nat)
  | [] => .ok []
  | tok :: rest =>
    let trimmed := trimChars tok
    if trimmed.isEmpty then parseChainTokens rest
    else
      match parseU64 trimmed with
      | none =>
        .error ("SYNC_CHAIN_IDS must contain comma-separated u64 values (invalid value: "
          ++ String.mk trimmed ++ ")")
      | some chain_id => (parseChainTokens rest).map (chain_id :: ·)

/-- `parse_chain_ids_from_env` (`src/sync/orchestrator.rs` lines 214-235):
an unset variable yields no ids, otherwise the raw value is split on commas
and parsed. -/
def parse_chain_ids_from_env (raw : Option RStr) : Except String (List Nat) :=
  match raw with
  | none => .ok []
  | some r => parseChainTokens (splitChar ',' r)

/-- The remote manifest fetch as `DefaultManifestService::download_manifest`
consumes it: the HTTP text fetch failed, or it succeeded and the body parsed
to a manifest, or it succeeded with an unparseable body. -/
inductive FetchResult where
  | fetchErr (msg : String)
  | parsed (m : Manifest)
  | unparseable
deriving Repr

/-- `DefaultManifestService::download_manifest` (`src/sync/runtime.rs` lines
165-199): a fetch failure is NOT propagated — a fresh empty manifest is
written to the manifest path and returned; a successful fetch writes the
normalized body and returns the parsed manifest; only a parse failure of a
fetched body is an error. The returned manifest is also the file contents
written to the manifest path. -/
def download_manifest : FetchResult → Except String Manifest
  | .parsed m => .ok m
  | .unparseable => .error "failed to parse manifest"
  | .fetchErr _ => .ok Manifest.new

/-- Result of a whole orchestrator run: aborted during configuration /
manifest acquisition (before any network), or finished the per-network loop
with a final state and success flag. -/
inductive RunResult where
  | configError (msg : String)
  | finished (st : OrchState) (ok : Bool)

/-- Initial orchestrator state: the downloaded manifest is on disk, no
working db files, nothing processed or committed. -/
def initState (m : Manifest) : OrchState :=
  { manifest := m, dbFiles := fun _ => false, processed := [], committed := [] }

/-- `run_sync_with` (`src/sync/orchestrator.rs` lines 20-101), from manifest
acquisition onward: download the manifest, determine the network set as the
union of manifest keys, env-declared ids and config-declared ids, and run
the per-network loop sequentially in ascending id order. -/
def run_sync_with (B : Nat → ChainBehavior) (tsOf : Nat → String)
    (fetch : FetchResult) (envRaw : Option RStr) (cfgIds : List Nat) : RunResult :=
  match download_manifest fetch with
  | .error e => .configError e
  | .ok m =>
    match parse_chain_ids_from_env envRaw with
    | .error e => .configError e
    | .ok envIds =>
      let chains := collectChainIds (manifestKeys m) envIds cfgIds
      let r := runChains B tsOf chains (initState m)
      .finished r.1 r.2

/-! ## Concrete sample values used by witnesses and counterexamples -/

/-- A manifest entry at seed generation 3 (spec scenario for claims C5/C7). -/
def sampleEntry3 : ManifestEntry :=
  { dump_url := "u0", dump_timestamp := "t0", seed_generation := 3 }

/-- A current-schema manifest holding network `42161` at seed generation 3. -/
def sampleManifest : Manifest :=
  { schema_version := 2, networks := [(42161, sampleEntry3)] }

/-- The manifest obtained by committing `(42161, "u1", "t1")` into
`sampleManifest`. -/
def sampleManifestAfterCommit : Manifest :=
  { schema_version := 2,
    networks := [(42161,
      { dump_url := "u1", dump_timestamp := "t1", seed_generation := 3 })] }

/-- An empty manifest at the current schema version. -/
def emptyManifest2 : Manifest := { schema_version := 2, networks := [] }

/-- Finalize start state: working db present, no stale artifacts, a previous
archive in place. -/
def finFresh : FinState :=
  { db := true, sql := FileSt.absent, tmp := FileSt.absent,
    dump := FileSt.complete }

/-- Finalize start state with a stale sql export lying around. -/
def finStale : FinState :=
  { db := true, sql := FileSt.complete, tmp := FileSt.absent,
    dump := FileSt.complete }

/-- Oracle: sqlite export exits non-zero. -/
def oracleExportFail : FinOracle :=
  { sqliteSpawn := some false, gzipSpawn := some true }

/-- Oracle: gzip fails to spawn. -/
def oracleGzipSpawnFail : FinOracle :=
  { sqliteSpawn := some true, gzipSpawn := none }

/-- Oracle: both subprocesses succeed. -/
def oracleAllOk : FinOracle :=
  { sqliteSpawn := some true, gzipSpawn := some true }

/-- CLI options whose db path collides with the redaction marker flag. -/
def leakOptions : RunCliSyncOptions :=
  { cli_binary := "cli", db_path := "--api-token", chain_id := 1,
    api_token := some "SECRET", repo_commit := "c",
    start_block := none, end_block := none }

/-- A well-formed CLI invocation with a distinct token. -/
def plainOptions : RunCliSyncOptions :=
  { cli_binary := "cli", db_path := "data/10.db", chain_id := 10,
    api_token := some "SECRET", repo_commit := "c",
    start_block := some 100, end_block := none }

/-- A successful service step that leaves the working db file in place. -/
def allOkStep : StepEffect := { ok := true, dbAfter := true }

/-- A network whose whole sub-machine succeeds (finalize removes the db). -/
def allOkBehavior : ChainBehavior :=
  { prepare := allOkStep, plan := allOkStep, invoke := allOkStep,
    finalize := { ok := true, dbAfter := false } }

/-- A network whose prepare step fails after materializing a working db. -/
def failingPrepareBehavior : ChainBehavior :=
  { prepare := { ok := false, dbAfter := true }, plan := allOkStep,
    invoke := allOkStep, finalize := allOkStep }

/-- Behaviours for the C2 scenario: network 2 fails in prepare, the rest
succeed. -/
def c2Behaviors : Nat → ChainBehavior :=
  fun c => if c = 2 then failingPrepareBehavior else allOkBehavior

/-- All networks succeed. -/
def allOkBehaviors : Nat → ChainBehavior := fun _ => allOkBehavior

/-- A constant injected timestamp. -/
def constTs : Nat → String := fun _ => "2024-01-01T00:00:00Z"

/-! ## Association-list lemmas for the manifest map -/

theorem findEntry_insertEntry_self (k : Nat) (v : ManifestEntry)
    (l : List (Nat × ManifestEntry)) :
    findEntry k (insertEntry k v l) = some v := by
  induction l with
  | nil => simp [insertEntry, findEntry]
  | cons p rest ih =>
    obtain ⟨k1, e⟩ := p
    by_cases h1 : k < k1
    · simp [insertEntry, h1, findEntry]
    · by_cases h2 : k = k1
      · simp [insertEntry, h1, h2, findEntry]
      · simp [insertEntry, h1, h2, findEntry, ih]

theorem findEntry_insertEntry_ne (k c : Nat) (v : ManifestEntry)
    (l : List (Nat × ManifestEntry)) (h : c ≠ k) :
    findEntry c (insertEntry k v l) = findEntry c l := by
  induction l with
  | nil => simp [insertEntry, findEntry, h]
  | cons p rest ih =>
    obtain ⟨k1, e⟩ := p
    by_cases h1 : k < k1
    · simp [insertEntry, h1, findEntry, h]
    · by_cases h2 : k = k1
      · subst h2
        simp [insertEntry, h1, findEntry, h]
      · simp [insertEntry, h1, h2, findEntry, ih]

/-- A successful `update_manifest` call rewrites the file with exactly the
upserted entry, keeping the loaded schema version. -/
theorem update_manifest_ok_eq (mfile : Option Manifest) (network_id : Nat)
    (u t : String)
    (hv : (load_manifest mfile).schema_version = CURRENT_SCHEMA_VERSION) :
    update_manifest mfile network_id u t = .ok { load_manifest mfile with
      networks := insertEntry network_id
        { dump_url := u, dump_timestamp := t,
          seed_generation :=
            seedGenerationFor network_id (load_manifest mfile).networks }
        (load_manifest mfile).networks } := by
  simp [update_manifest, hv]

/-! ## Claim C5 -/

/-- Claim C5: committing a manifest entry preserves that network's existing
seed generation (default 1 for a new network), a second commit without an
intervening bump leaves the seed generation unchanged, and entries of all
other networks are untouched. -/
theorem c5_commit_preserves_seed_generation (mfile : Option Manifest)
    (chain : Nat) (u1 t1 u2 t2 : String) (m1 : Manifest)
    (h : update_manifest mfile chain u1 t1 = .ok m1) :
    ((findEntry chain m1.networks).map (·.seed_generation) =
      some (((findEntry chain (load_manifest mfile).networks).map
        (·.seed_generation)).getD DEFAULT_SEED_GENERATION)) ∧
    (∀ c, c ≠ chain →
      findEntry c m1.networks = findEntry c (load_manifest mfile).networks) ∧
    ∃ m2, update_manifest (some m1) chain u2 t2 = .ok m2 ∧
      (findEntry chain m2.networks).map (·.seed_generation) =
        (findEntry chain m1.networks).map (·.seed_generation) ∧
      ∀ c, c ≠ chain → findEntry c m2.networks = findEntry c m1.networks := by
  by_cases hv : (load_manifest mfile).schema_version = CURRENT_SCHEMA_VERSION
  · rw [update_manifest_ok_eq mfile chain u1 t1 hv] at h
    injection h with h1
    subst h1
    refine ⟨?_, ?_, ?_⟩
    · cases he : findEntry chain (load_manifest mfile).networks <;>
        simp [findEntry_insertEntry_self, seedGenerationFor, he]
    · intro c hc
      simpa using findEntry_insertEntry_ne chain c _ _ hc
    · refine ⟨_, update_manifest_ok_eq _ chain u2 t2
        (by simpa [load_manifest] using hv), ?_, ?_⟩
      · simp [load_manifest, findEntry_insertEntry_self, seedGenerationFor]
      · intro c hc
        simpa [load_manifest] using findEntry_insertEntry_ne chain c _ _ hc
  · rw [update_manifest, if_pos (by simpa using hv)] at h
    cases h

/-- Claim C5 witness: the spec scenario, committing twice into a manifest
holding network `42161` at seed generation 3. -/
theorem c5_commit_preserves_seed_generation_witness :
    ((findEntry 42161 sampleManifestAfterCommit.networks).map (·.seed_generation) =
      some (((findEntry 42161 (load_manifest (some sampleManifest)).networks).map
        (·.seed_generation)).getD DEFAULT_SEED_GENERATION)) ∧
    (∀ c, c ≠ 42161 →
      findEntry c sampleManifestAfterCommit.networks =
        findEntry c (load_manifest (some sampleManifest)).networks) ∧
    ∃ m2, update_manifest (some sampleManifestAfterCommit) 42161 "u2" "t2" = .ok m2 ∧
      (findEntry 42161 m2.networks).map (·.seed_generation) =
        (findEntry 42161 sampleManifestAfterCommit.networks).map (·.seed_generation) ∧
      ∀ c, c ≠ 42161 →
        findEntry c m2.networks = findEntry c sampleManifestAfterCommit.networks :=
  c5_commit_preserves_seed_generation (some sampleManifest) 42161
    "u1" "t1" "u2" "t2" sampleManifestAfterCommit rfl

/-! ## Claim C7 -/

/-- Claim C7: `bump_seed_generation` increments exactly one network's seed
generation by one, reporting previous and next, and fails with a not-found
error, leaving the manifest file unchanged, when the network is absent. -/
theorem c7_bump_seed_generation (mfile : Option Manifest) (chain : Nat) :
    (∀ e, findEntry chain (load_manifest mfile).networks = some e →
      (bump_seed_generation mfile chain).1 =
        .ok { network_id := chain, previous := e.seed_generation,
              next := e.seed_generation + 1 } ∧
      ∃ m2, (bump_seed_generation mfile chain).2 = some m2 ∧
        m2.schema_version = (load_manifest mfile).schema_version ∧
        findEntry chain m2.networks =
          some { e with seed_generation := e.seed_generation + 1 } ∧
        ∀ c, c ≠ chain →
          findEntry c m2.networks = findEntry c (load_manifest mfile).networks) ∧
    (findEntry chain (load_manifest mfile).networks = none →
      bump_seed_generation mfile chain =
        (.error ("network id " ++ toString chain ++ " not found in manifest"),
          mfile)) := by
  constructor
  · intro e he
    rw [bump_seed_generation, he]
    refine ⟨rfl, _, rfl, rfl, ?_, ?_⟩
    · simp [findEntry_insertEntry_self]
    · intro c hc
      simpa using findEntry_insertEntry_ne chain c _ _ hc
  · intro he
    rw [bump_seed_generation, he]

/-- Claim C7 witness: the spec scenario, bumping `42161` from seed
generation 3 to 4, and failing with not-found for `999`. -/
theorem c7_bump_seed_generation_witness :
    ((bump_seed_generation (some sampleManifest) 42161).1 =
      .ok { network_id := 42161, previous := 3, next := 4 } ∧
      ∃ m2, (bump_seed_generation (some sampleManifest) 42161).2 = some m2 ∧
        m2.schema_version = (load_manifest (some sampleManifest)).schema_version ∧
        findEntry 42161 m2.networks =
          some { sampleEntry3 with seed_generation := sampleEntry3.seed_generation + 1 } ∧
        ∀ c, c ≠ 42161 →
          findEntry c m2.networks =
            findEntry c (load_manifest (some sampleManifest)).networks) ∧
    bump_seed_generation (some sampleManifest) 999 =
      (.error ("network id " ++ toString 999 ++ " not found in manifest"),
        some sampleManifest) :=
  ⟨(c7_bump_seed_generation (some sampleManifest) 42161).1 sampleEntry3 rfl,
   (c7_bump_seed_generation (some sampleManifest) 999).2 rfl⟩

/-! ## Claim C1 -/

/-- Claim C1 counterexample: with the manifest at schema version 2 and the
source constant reading 5, `bump_schema_version` fails and the constant is
untouched, but the manifest file has already been rewritten to version 3 —
the failure is not mutation-free, refuting the claim as stated. -/
theorem c1_counterexample :
    (bump_schema_version (some emptyManifest2) (SrcConst.value 5)).1.isOk = false ∧
    (bump_schema_version (some emptyManifest2) (SrcConst.value 5)).2.2 =
      SrcConst.value 5 ∧
    (bump_schema_version (some emptyManifest2) (SrcConst.value 5)).2.1 =
      some { schema_version := 3, networks := [] } ∧
    (some ({ schema_version := 3, networks := [] } : Manifest)) ≠
      some emptyManifest2 := by
  decide

/-- Claim C1 (amended): from a manifest at version K with the constant also
reading K, two bumps yield K+2 on both sides; when the constant reads V ≠ K
the bump fails and the source constant is unchanged, but the manifest file
has already been rewritten to K+1 — the manifest write precedes the constant
check, so the failure is not atomic on the manifest side. -/
theorem c1_bump_schema_version (m : Manifest) (K : Nat)
    (hK : m.schema_version = K) :
    ((bump_schema_version (some m) (SrcConst.value K)).1 =
        .ok { previous := K, next := K + 1 } ∧
      (bump_schema_version (some m) (SrcConst.value K)).2.1 =
        some { m with schema_version := K + 1 } ∧
      (bump_schema_version (some m) (SrcConst.value K)).2.2 =
        SrcConst.value (K + 1) ∧
      (bump_schema_version (some { m with schema_version := K + 1 })
          (SrcConst.value (K + 1))).1 = .ok { previous := K + 1, next := K + 2 } ∧
      (bump_schema_version (some { m with schema_version := K + 1 })
          (SrcConst.value (K + 1))).2.1 = some { m with schema_version := K + 2 } ∧
      (bump_schema_version (some { m with schema_version := K + 1 })
          (SrcConst.value (K + 1))).2.2 = SrcConst.value (K + 2)) ∧
    ∀ V, V ≠ K →
      (∃ e, (bump_schema_version (some m) (SrcConst.value V)).1 = .error e) ∧
      (bump_schema_version (some m) (SrcConst.value V)).2.2 = SrcConst.value V ∧
      (bump_schema_version (some m) (SrcConst.value V)).2.1 =
        some { m with schema_version := K + 1 } := by
  subst hK
  constructor
  · simp [bump_schema_version, load_manifest, update_schema_version_constant]
  · intro V hV
    simp [bump_schema_version, load_manifest, update_schema_version_constant, hV]

/-- Claim C1 witness: the amended claim at K = 2 on an empty manifest. -/
theorem c1_bump_schema_version_witness :
    ((bump_schema_version (some emptyManifest2) (SrcConst.value 2)).1 =
        .ok { previous := 2, next := 3 } ∧
      (bump_schema_version (some emptyManifest2) (SrcConst.value 2)).2.1 =
        some { emptyManifest2 with schema_version := 3 } ∧
      (bump_schema_version (some emptyManifest2) (SrcConst.value 2)).2.2 =
        SrcConst.value 3 ∧
      (bump_schema_version (some { emptyManifest2 with schema_version := 3 })
          (SrcConst.value 3)).1 = .ok { previous := 3, next := 4 } ∧
      (bump_schema_version (some { emptyManifest2 with schema_version := 3 })
          (SrcConst.value 3)).2.1 = some { emptyManifest2 with schema_version := 4 } ∧
      (bump_schema_version (some { emptyManifest2 with schema_version := 3 })
          (SrcConst.value 3)).2.2 = SrcConst.value 4) ∧
    ∀ V, V ≠ 2 →
      (∃ e, (bump_schema_version (some emptyManifest2) (SrcConst.value V)).1 =
        .error e) ∧
      (bump_schema_version (some emptyManifest2) (SrcConst.value V)).2.2 =
        SrcConst.value V ∧
      (bump_schema_version (some emptyManifest2) (SrcConst.value V)).2.1 =
        some { emptyManifest2 with schema_version := 3 } :=
  c1_bump_schema_version emptyManifest2 2 rfl

/-! ## Claim C3 -/

/-- Claim C3 counterexample: starting from an existing working db and a
previous archive, (a) a gzip spawn failure propagates leaving the created
temporary archive behind instead of removing it, and (b) even the fully
successful finalize passes through a state where the previous archive is
deleted while nothing is at the archive path (the replacement exists only at
the temporary path) — refuting both halves of the claim as stated. -/
theorem c3_counterexample :
    ((finalize_database oracleGzipSpawnFail finFresh).1 = false ∧
      (finalize_database oracleGzipSpawnFail finFresh).2.1.tmp =
        FileSt.halfWritten) ∧
    ∃ s ∈ (finalize_database oracleAllOk finFresh).2.2,
      s.dump = FileSt.absent ∧ s.tmp = FileSt.complete := by
  decide

/-- Claim C3 (amended): when the export or compression tool runs and exits
non-zero, the corresponding artifact is removed before the error propagates;
but a spawn failure of either tool leaves the just-created artifact behind.
The temporary archive is always fully written before the previous archive is
deleted (every trace state with an empty archive path has a complete
temporary archive), yet the code deletes the old archive and only then
renames the replacement into place, rather than replacing atomically. -/
theorem c3_finalize_database (o : FinOracle) (s0 : FinState)
    (hdb : s0.db = true) :
    (o.sqliteSpawn = some false →
      (finalize_database o s0).1 = false ∧
      (finalize_database o s0).2.1.sql = FileSt.absent ∧
      (finalize_database o s0).2.1.tmp = s0.tmp) ∧
    (o.sqliteSpawn = none →
      (finalize_database o s0).1 = false ∧
      (finalize_database o s0).2.1.sql = FileSt.halfWritten) ∧
    (o.sqliteSpawn = some true → o.gzipSpawn = some false →
      (finalize_database o s0).1 = false ∧
      (finalize_database o s0).2.1.tmp = FileSt.absent) ∧
    (o.sqliteSpawn = some true → o.gzipSpawn = none →
      (finalize_database o s0).1 = false ∧
      (finalize_database o s0).2.1.tmp = FileSt.halfWritten) ∧
    (s0.dump = FileSt.complete →
      ∀ s ∈ (finalize_database o s0).2.2,
        s.dump = FileSt.absent → s.tmp = FileSt.complete) ∧
    (o.sqliteSpawn = some true → o.gzipSpawn = some true →
      (finalize_database o s0).1 = true ∧
      (finalize_database o s0).2.1.dump = FileSt.complete ∧
      (finalize_database o s0).2.1.tmp = FileSt.absent ∧
      (finalize_database o s0).2.1.sql = FileSt.absent ∧
      (finalize_database o s0).2.1.db = false) := by
  refine ⟨?_, ?_, ?_, ?_, ?_, ?_⟩ <;>
    (revert hdb; revert s0; revert o; decide)

/-- Claim C3 witness: the amended claim evaluated at a concrete failing
export (non-zero exit), showing the sql artifact removed. -/
theorem c3_finalize_database_witness :
    finStale.db = true ∧
    (finalize_database oracleExportFail finStale).1 = false ∧
    (finalize_database oracleExportFail finStale).2.1.sql = FileSt.absent ∧
    (finalize_database oracleExportFail finStale).2.1.tmp = finStale.tmp :=
  ⟨rfl, (c3_finalize_database oracleExportFail finStale rfl).1 rfl⟩

/-! ## Claim C10 -/

/-- Claim C10 counterexample: when an earlier argument (here `db_path`)
itself equals `--api-token`, the redaction replaces the argument after that
first occurrence, and the real token value still appears in the logged
argument vector — refuting the claim as stated. -/
theorem c10_counterexample :
    leakOptions.api_token = some "SECRET" ∧
    "SECRET" ∈ loggedArgsOf leakOptions := by
  decide

/-- Claim C10 (amended): provided no argument before the token slot equals
`--api-token` (the fixed flags never do; `db_path`, the rendered chain id
and `repo_commit` must not), the executed argument vector carries the real
token right after `--api-token`, while the logged vector is the same vector
with that slot replaced by `***`; a token distinct from every other argument
string therefore never appears in the log. -/
theorem c10_token_redaction (o : RunCliSyncOptions) (tok : String)
    (htok : o.api_token = some tok)
    (h1 : o.db_path ≠ "--api-token")
    (h2 : toString o.chain_id ≠ "--api-token")
    (h3 : o.repo_commit ≠ "--api-token") :
    ∃ args logArgs, run_cli_sync o = .ok (args, logArgs) ∧
      args = buildCliArgs o tok ∧
      args.get? 8 = some "--api-token" ∧
      args.get? 9 = some tok ∧
      logArgs = setAt args 9 "***" ∧
      logArgs = otherArgStrings o ∧
      logArgs.get? 9 = some "***" ∧
      (tok ∉ otherArgStrings o → tok ∉ logArgs) := by
  have hpos : position "--api-token" (buildCliArgs o tok) = some 8 := by
    simp [buildCliArgs, position, h1, h2, h3]
  have hred : redactArgs (buildCliArgs o tok) = otherArgStrings o := by
    rw [redactArgs, hpos]
    simp [buildCliArgs, otherArgStrings, setAt]
  have hrun : run_cli_sync o =
      .ok (buildCliArgs o tok, redactArgs (buildCliArgs o tok)) := by
    rw [run_cli_sync, htok]
  refine ⟨buildCliArgs o tok, otherArgStrings o, by rw [hrun, hred], rfl,
    rfl, rfl, ?_, rfl, rfl, fun hn => hn⟩
  rw [← hred, redactArgs, hpos]

/-- Claim C10 witness: a well-formed invocation with a distinct token;
the executed vector carries the token, the logged vector carries `***`. -/
theorem c10_token_redaction_witness :
    ∃ args logArgs,
      run_cli_sync plainOptions = .ok (args, logArgs) ∧
      args = buildCliArgs plainOptions "SECRET" ∧
      args.get? 8 = some "--api-token" ∧
      args.get? 9 = some "SECRET" ∧
      logArgs = setAt args 9 "***" ∧
      logArgs = otherArgStrings plainOptions ∧
      logArgs.get? 9 = some "***" ∧
      ("SECRET" ∉ otherArgStrings plainOptions → "SECRET" ∉ logArgs) :=
  c10_token_redaction plainOptions "SECRET"
    rfl (by decide) (by decide) (by decide)

/-! ## Orchestrator lemmas -/

/-- Entering a network's sub-machine appends exactly that network to the
processed trace, on every path. -/
theorem syncSingleChain_processed (b : ChainBehavior) (c : Nat) (ts : String)
    (st : OrchState) :
    (syncSingleChain b c ts st).1.processed = st.processed ++ [c] := by
  unfold syncSingleChain
  repeat' split
  all_goals try (cases hu : update_manifest (some st.manifest) c (dumpUrlFor c) ts)
  all_goals simp_all [removeDbIfExists]

/-- A failing sub-machine aborts without committing: the result is `false`,
the manifest file and the committed trace are untouched, the network is
recorded as processed, and the working db file is removed when the failure
happened after prepare, while a prepare failure leaves it as prepare left
it. -/
theorem syncSingleChain_fail (b : ChainBehavior) (c : Nat) (ts : String)
    (st : OrchState) (hf : chainFails b = true) :
    (syncSingleChain b c ts st).2 = false ∧
    (syncSingleChain b c ts st).1.manifest = st.manifest ∧
    (syncSingleChain b c ts st).1.committed = st.committed ∧
    (syncSingleChain b c ts st).1.processed = st.processed ++ [c] ∧
    (b.prepare.ok = true → (syncSingleChain b c ts st).1.dbFiles c = false) ∧
    (b.prepare.ok = false →
      (syncSingleChain b c ts st).1.dbFiles c = b.prepare.dbAfter) := by
  unfold syncSingleChain
  by_cases h1 : b.prepare.ok = false
  · simp [h1, setDbFile]
  · by_cases h2 : b.plan.ok = false
    · simp [h1, h2, removeDbIfExists, setDbFile]
    · by_cases h3 : b.invoke.ok = false
      · simp [h1, h2, h3, removeDbIfExists, setDbFile]
      · by_cases h4 : b.finalize.ok = false
        · simp [h1, h2, h3, h4, removeDbIfExists, setDbFile]
        · exfalso
          simp only [Bool.not_eq_false] at h1 h2 h3 h4
          simp [chainFails, h1, h2, h3, h4] at hf

/-- The per-network loop distributes over list append: the tail runs from
the state the prefix produced, and a failing prefix short-circuits. -/
theorem runChains_append (B : Nat → ChainBehavior) (tsOf : Nat → String)
    (pre : List Nat) :
    ∀ (rest : List Nat) (st : OrchState),
      runChains B tsOf (pre ++ rest) st =
        match runChains B tsOf pre st with
        | (st1, true) => runChains B tsOf rest st1
        | (st1, false) => (st1, false) := by
  induction pre with
  | nil => intro rest st; simp [runChains]
  | cons c pre ih =>
    intro rest st
    simp only [List.cons_append, runChains]
    cases syncSingleChain (B c) c (tsOf c) st with
    | mk st2 ok => cases ok <;> simp [ih]

/-- A loop that ends successfully processed exactly its chain list, in
order. -/
theorem runChains_ok_processed (B : Nat → ChainBehavior) (tsOf : Nat → String) :
    ∀ (chains : List Nat) (st st1 : OrchState),
      runChains B tsOf chains st = (st1, true) →
      st1.processed = st.processed ++ chains := by
  intro chains
  induction chains with
  | nil =>
    intro st st1 h
    simp only [runChains] at h
    injection h with h1 _
    subst h1
    simp
  | cons c rest ih =>
    intro st st1 h
    simp only [runChains] at h
    cases hs : syncSingleChain (B c) c (tsOf c) st with
    | mk st2 ok =>
      rw [hs] at h
      cases ok with
      | false => exact absurd h (by simp)
      | true =>
        have hp : st2.processed = st.processed ++ [c] := by
          have := syncSingleChain_processed (B c) c (tsOf c) st
          rwa [hs] at this
        have := ih st2 st1 h
        rw [this, hp, List.append_assoc]
        rfl

/-- Every network processed by the loop comes from its chain list (or was
already in the trace). -/
theorem runChains_processed_mem (B : Nat → ChainBehavior) (tsOf : Nat → String) :
    ∀ (chains : List Nat) (st : OrchState) (x : Nat),
      x ∈ (runChains B tsOf chains st).1.processed →
      x ∈ st.processed ∨ x ∈ chains := by
  intro chains
  induction chains with
  | nil => intro st x h; simp only [runChains] at h; exact Or.inl h
  | cons c rest ih =>
    intro st x h
    simp only [runChains] at h
    cases hs : syncSingleChain (B c) c (tsOf c) st with
    | mk st2 ok =>
      rw [hs] at h
      have hp : st2.processed = st.processed ++ [c] := by
        have := syncSingleChain_processed (B c) c (tsOf c) st
        rwa [hs] at this
      cases ok with
      | false =>
        simp only at h
        rw [hp] at h
        rcases List.mem_append.mp h with h | h
        · exact Or.inl h
        · simp at h; simp [h]
      | true =>
        simp only at h
        rcases ih st2 x h with h | h
        · rw [hp] at h
          rcases List.mem_append.mp h with h | h
          · exact Or.inl h
          · simp at h; simp [h]
        · simp [h]

/-! ## Claim C2 -/

/-- Claim C2 counterexample: three networks, the second fails in prepare
leaving its working db behind; the run aborts (network 1 committed, network
3 never processed) but the failing network's working snapshot file is NOT
removed — refuting the removal conjunct of the claim as stated. -/
theorem c2_counterexample :
    chainFails (c2Behaviors 2) = true ∧
    (runChains c2Behaviors constTs [1, 2, 3] (initState Manifest.new)).2 = false ∧
    (runChains c2Behaviors constTs [1, 2, 3] (initState Manifest.new)).1.processed
      = [1, 2] ∧
    (runChains c2Behaviors constTs [1, 2, 3] (initState Manifest.new)).1.committed
      = [1] ∧
    (runChains c2Behaviors constTs [1, 2, 3] (initState Manifest.new)).1.dbFiles 2
      = true := by
  refine ⟨by decide, ?_, ?_, ?_, ?_⟩ <;> rfl

/-- Claim C2 (amended): after a prefix of networks completes, a network
whose prepare/plan/invoke/finalize sub-machine fails aborts the run
immediately — its result is failure, no later network is processed, the
failing network is never committed, and the manifest file (with every entry
committed for the prefix) is untouched; the failing network's working
snapshot file is removed before the error propagates whenever the failure
is in plan, invocation or finalize, but a prepare failure propagates
without that cleanup, leaving the file as prepare left it. -/
theorem c2_failfast (B : Nat → ChainBehavior) (tsOf : Nat → String)
    (pre : List Nat) (c : Nat) (post : List Nat) (st0 st1 : OrchState)
    (hpre : runChains B tsOf pre st0 = (st1, true))
    (hfail : chainFails (B c) = true) :
    (runChains B tsOf (pre ++ c :: post) st0).2 = false ∧
    (runChains B tsOf (pre ++ c :: post) st0).1.processed =
      st1.processed ++ [c] ∧
    (runChains B tsOf (pre ++ c :: post) st0).1.committed = st1.committed ∧
    (runChains B tsOf (pre ++ c :: post) st0).1.manifest = st1.manifest ∧
    ((B c).prepare.ok = true →
      (runChains B tsOf (pre ++ c :: post) st0).1.dbFiles c = false) ∧
    ((B c).prepare.ok = false →
      (runChains B tsOf (pre ++ c :: post) st0).1.dbFiles c =
        (B c).prepare.dbAfter) := by
  have hsf := syncSingleChain_fail (B c) c (tsOf c) st1 hfail
  rw [runChains_append B tsOf pre (c :: post) st0, hpre]
  simp only [runChains]
  cases hs : syncSingleChain (B c) c (tsOf c) st1 with
  | mk st2 ok =>
    rw [hs] at hsf
    obtain ⟨hok, hman, hcom, hproc, hdb1, hdb2⟩ := hsf
    subst hok
    simpa using ⟨hproc, hcom, hman, hdb1, hdb2⟩

/-- Claim C2 witness: the amended claim at the concrete C2 scenario
(networks 1-2-3, network 2 failing in prepare after materializing its db). -/
theorem c2_failfast_witness :
    (runChains c2Behaviors constTs [1] (initState Manifest.new)).2 = true ∧
    chainFails (c2Behaviors 2) = true ∧
    ((runChains c2Behaviors constTs ([1] ++ 2 :: [3]) (initState Manifest.new)).2
        = false ∧
      (runChains c2Behaviors constTs ([1] ++ 2 :: [3])
          (initState Manifest.new)).1.processed =
        (runChains c2Behaviors constTs [1] (initState Manifest.new)).1.processed
          ++ [2] ∧
      (runChains c2Behaviors constTs ([1] ++ 2 :: [3])
          (initState Manifest.new)).1.committed =
        (runChains c2Behaviors constTs [1] (initState Manifest.new)).1.committed ∧
      (runChains c2Behaviors constTs ([1] ++ 2 :: [3])
          (initState Manifest.new)).1.manifest =
        (runChains c2Behaviors constTs [1] (initState Manifest.new)).1.manifest ∧
      ((c2Behaviors 2).prepare.ok = true →
        (runChains c2Behaviors constTs ([1] ++ 2 :: [3])
          (initState Manifest.new)).1.dbFiles 2 = false) ∧
      ((c2Behaviors 2).prepare.ok = false →
        (runChains c2Behaviors constTs ([1] ++ 2 :: [3])
          (initState Manifest.new)).1.dbFiles 2 =
          (c2Behaviors 2).prepare.dbAfter)) :=
  ⟨rfl, by decide,
    c2_failfast c2Behaviors constTs [1] 2 [3] (initState Manifest.new)
      (runChains c2Behaviors constTs [1] (initState Manifest.new)).1
      (by rfl) (by decide)⟩

/-! ## Sorted-set lemmas for the network-set computation -/

theorem mem_insertSortedNat (x a : Nat) :
    ∀ l : List Nat, a ∈ insertSortedNat x l ↔ a = x ∨ a ∈ l := by
  intro l
  induction l with
  | nil => simp [insertSortedNat]
  | cons y ys ih =>
    by_cases h1 : x < y
    · simp [insertSortedNat, h1]
    · by_cases h2 : x = y
      · subst h2
        simp [insertSortedNat, h1]
      · simp [insertSortedNat, h1, h2, ih]
        tauto

theorem sorted_insertSortedNat (x : Nat) :
    ∀ l : List Nat, List.Sorted (· < ·) l →
      List.Sorted (· < ·) (insertSortedNat x l) := by
  intro l
  induction l with
  | nil => intro _; simp [insertSortedNat]
  | cons y ys ih =>
    intro hs
    rw [List.sorted_cons] at hs
    obtain ⟨hy, hys⟩ := hs
    by_cases h1 : x < y
    · rw [insertSortedNat, if_pos h1, List.sorted_cons, List.sorted_cons]
      refine ⟨?_, hy, hys⟩
      intro b hb
      rcases List.mem_cons.mp hb with rfl | hb
      · exact h1
      · exact h1.trans (hy b hb)
    · by_cases h2 : x = y
      · subst h2
        rw [insertSortedNat, if_neg h1, if_pos rfl, List.sorted_cons]
        exact ⟨hy, hys⟩
      · have hyx : y < x := by omega
        rw [insertSortedNat, if_neg h1, if_neg h2, List.sorted_cons]
        constructor
        · intro b hb
          rcases (mem_insertSortedNat x b ys).mp hb with rfl | hb
          · exact hyx
          · exact hy b hb
        · exact ih hys

theorem mem_foldl_insertSortedNat (ks : List Nat) :
    ∀ (acc : List Nat) (a : Nat),
      a ∈ ks.foldl (fun s k => insertSortedNat k s) acc ↔ a ∈ ks ∨ a ∈ acc := by
  induction ks with
  | nil => simp
  | cons k ks ih =>
    intro acc a
    rw [List.foldl_cons, ih, mem_insertSortedNat]
    simp
    tauto

theorem sorted_foldl_insertSortedNat (ks : List Nat) :
    ∀ acc : List Nat, List.Sorted (· < ·) acc →
      List.Sorted (· < ·) (ks.foldl (fun s k => insertSortedNat k s) acc) := by
  induction ks with
  | nil => intro acc h; simpa
  | cons k ks ih =>
    intro acc h
    rw [List.foldl_cons]
    exact ih _ (sorted_insertSortedNat k acc h)

/-- Membership in the effective network set is exactly membership in the
union of the three sources. -/
theorem mem_collectChainIds (mk env cfg : List Nat) (x : Nat) :
    x ∈ collectChainIds mk env cfg ↔ x ∈ mk ∨ x ∈ env ∨ x ∈ cfg := by
  unfold collectChainIds
  rw [mem_foldl_insertSortedNat, mem_foldl_insertSortedNat,
    mem_foldl_insertSortedNat]
  simp
  tauto

/-- The effective network set is strictly ascending (hence duplicate-free). -/
theorem sorted_collectChainIds (mk env cfg : List Nat) :
    List.Sorted (· < ·) (collectChainIds mk env cfg) := by
  unfold collectChainIds
  exact sorted_foldl_insertSortedNat cfg _
    (sorted_foldl_insertSortedNat env _
      (sorted_foldl_insertSortedNat mk [] (by simp)))

/-! ## Claim C8 -/

/-- Claim C8: the effective network set of a run is the union of the
manifest networks, the env-declared ids and the config-declared ids with
duplicates collapsed; the run iterates it strictly sequentially in ascending
id order, and a run that finishes successfully has processed exactly that
list in that order. -/
theorem c8_network_set (B : Nat → ChainBehavior) (tsOf : Nat → String)
    (fetch : FetchResult) (envRaw : Option RStr) (cfg : List Nat)
    (m : Manifest) (envIds : List Nat)
    (hm : download_manifest fetch = .ok m)
    (henv : parse_chain_ids_from_env envRaw = .ok envIds) :
    (∀ x, x ∈ collectChainIds (manifestKeys m) envIds cfg ↔
      x ∈ manifestKeys m ∨ x ∈ envIds ∨ x ∈ cfg) ∧
    List.Sorted (· < ·) (collectChainIds (manifestKeys m) envIds cfg) ∧
    ∃ st ok, run_sync_with B tsOf fetch envRaw cfg = .finished st ok ∧
      (ok = true →
        st.processed = collectChainIds (manifestKeys m) envIds cfg) := by
  refine ⟨fun x => mem_collectChainIds _ _ _ x, sorted_collectChainIds _ _ _, ?_⟩
  rcases hr : runChains B tsOf (collectChainIds (manifestKeys m) envIds cfg)
    (initState m) with ⟨st, ok⟩
  refine ⟨st, ok, ?_, ?_⟩
  · rw [run_sync_with, hm, henv]
    simp only [hr]
  · intro hok
    subst hok
    have := runChains_ok_processed B tsOf
      (collectChainIds (manifestKeys m) envIds cfg) (initState m) st hr
    simpa [initState] using this

/-- Claim C8 witness: a manifest network `42161`, env ids `10,20,30` (with
blank entries) and config ids `20, 5`; the effective set is the sorted
union and a fully successful run processes exactly it. -/
theorem c8_network_set_witness :
    (∀ x, x ∈ collectChainIds (manifestKeys sampleManifest) [10, 20, 30] [20, 5] ↔
      x ∈ manifestKeys sampleManifest ∨ x ∈ [10, 20, 30] ∨ x ∈ [20, 5]) ∧
    List.Sorted (· < ·)
      (collectChainIds (manifestKeys sampleManifest) [10, 20, 30] [20, 5]) ∧
    ∃ st ok, run_sync_with allOkBehaviors constTs (FetchResult.parsed sampleManifest)
        (some (" 10,20 , , 30 ".toList)) [20, 5] = .finished st ok ∧
      (ok = true →
        st.processed =
          collectChainIds (manifestKeys sampleManifest) [10, 20, 30] [20, 5]) :=
  c8_network_set allOkBehaviors constTs (FetchResult.parsed sampleManifest)
    (some (" 10,20 , , 30 ".toList)) [20, 5] sampleManifest [10, 20, 30]
    rfl (by rfl)

/-! ## Claim C9 -/

/-- Claim C9: a failed HTTP fetch of the remote manifest does not abort the
run — a fresh empty manifest at the current schema version is written to the
manifest path and returned, and the run proceeds with every processed
network coming from the env list or the run configuration, none from the
manifest. -/
theorem c9_manifest_fetch_fallback (B : Nat → ChainBehavior)
    (tsOf : Nat → String) (msg : String) (envRaw : Option RStr)
    (cfg : List Nat) (envIds : List Nat)
    (henv : parse_chain_ids_from_env envRaw = .ok envIds) :
    download_manifest (FetchResult.fetchErr msg) = .ok Manifest.new ∧
    Manifest.new.schema_version = CURRENT_SCHEMA_VERSION ∧
    Manifest.new.networks = [] ∧
    ∃ st ok, run_sync_with B tsOf (FetchResult.fetchErr msg) envRaw cfg =
        .finished st ok ∧
      ∀ x ∈ st.processed, x ∈ envIds ∨ x ∈ cfg := by
  refine ⟨rfl, rfl, rfl, ?_⟩
  rcases hr : runChains B tsOf
    (collectChainIds (manifestKeys Manifest.new) envIds cfg)
    (initState Manifest.new) with ⟨st, ok⟩
  refine ⟨st, ok, ?_, ?_⟩
  · rw [run_sync_with]
    simp only [download_manifest, henv, hr]
  · intro x hx
    have hmem := runChains_processed_mem B tsOf
      (collectChainIds (manifestKeys Manifest.new) envIds cfg)
      (initState Manifest.new) x (by rw [hr]; exact hx)
    rcases hmem with h | h
    · simp [initState] at h
    · have := (mem_collectChainIds (manifestKeys Manifest.new) envIds cfg x).mp h
      rcases this with h | h
      · simp [manifestKeys, Manifest.new] at h
      · exact h

/-- Claim C9 witness: fetch failure with env ids unset and one configured
network; the run finishes and processes only configured networks. -/
theorem c9_manifest_fetch_fallback_witness :
    download_manifest (FetchResult.fetchErr "network error") = .ok Manifest.new ∧
    Manifest.new.schema_version = CURRENT_SCHEMA_VERSION ∧
    Manifest.new.networks = [] ∧
    ∃ st ok, run_sync_with allOkBehaviors constTs
        (FetchResult.fetchErr "network error") none [7] = .finished st ok ∧
      ∀ x ∈ st.processed, x ∈ ([] : List Nat) ∨ x ∈ [7] :=
  c9_manifest_fetch_fallback allOkBehaviors constTs "network error" none [7] []
    rfl

/-! ## Split / render lemmas for the pragma output -/

theorem splitChar_ne_nil (sep : Char) (l : RStr) : splitChar sep l ≠ [] := by
  cases l with
  | nil => simp [splitChar]
  | cons c rest =>
    simp only [splitChar]
    by_cases h : c = sep
    · simp [h]
    · cases hr : splitChar sep rest with
      | nil => simp [h, hr]
      | cons a t => simp [h, hr]

theorem splitChar_append (sep : Char) :
    ∀ (l rest : RStr), sep ∉ l →
      splitChar sep (l ++ sep :: rest) = l :: splitChar sep rest := by
  intro l
  induction l with
  | nil => intro rest _; simp [splitChar]
  | cons c l ih =>
    intro rest h
    rw [List.mem_cons] at h
    push_neg at h
    obtain ⟨h1, h2⟩ := h
    simp only [List.cons_append, splitChar, List.append_eq]
    rw [ih rest h2]
    simp [Ne.symm h1]

theorem stripCR_of_not_mem (l : RStr) (h : '\r' ∉ l) : stripCR l = l := by
  unfold stripCR
  rw [if_neg]
  intro hg
  obtain ⟨hne, heq⟩ := List.mem_getLast?_eq_getLast (l := l) (x := '\r')
    (by rw [hg]; rfl)
  exact h (heq ▸ List.getLast_mem hne)

theorem not_mem_rawPragmaLine (ch : Char) (r : PragmaRow)
    (h1 : ch ∉ r.1) (h2 : ch ∉ r.2.1) (h3 : ch ∉ r.2.2) (hbar : ch ≠ '|') :
    ch ∉ rawPragmaLine r := by
  unfold rawPragmaLine
  intro hm
  rcases List.mem_append.mp hm with hm | hm
  · exact h1 hm
  · rcases List.mem_cons.mp hm with hm | hm
    · exact hbar hm
    · rcases List.mem_append.mp hm with hm | hm
      · exact h2 hm
      · rcases List.mem_cons.mp hm with hm | hm
        · exact hbar hm
        · exact h3 hm

/-- Splitting the rendered pragma stdout on newlines yields one piece per
row plus the empty piece of the terminating newline. -/
theorem splitChar_renderPragma :
    ∀ rows : List PragmaRow,
      (∀ r ∈ rows, goodField r.1 ∧ goodField r.2.1 ∧ goodField r.2.2) →
      splitChar '\n' (renderPragma rows) = rows.map rawPragmaLine ++ [[]] := by
  intro rows
  induction rows with
  | nil => intro _; rfl
  | cons r rows ih =>
    intro hrows
    obtain ⟨g1, g2, g3⟩ := hrows r (by simp)
    have hnl : '\n' ∉ rawPragmaLine r :=
      not_mem_rawPragmaLine '\n' r g1.1 g2.1 g3.1 (by decide)
    have hr : renderPragma (r :: rows) =
        rawPragmaLine r ++ '\n' :: renderPragma rows := by
      simp [renderPragma]
    rw [hr, splitChar_append '\n' _ _ hnl,
      ih (fun x hx => hrows x (by simp [hx]))]
    simp

/-- `rustLines` recovers exactly the rendered rows. -/
theorem rustLines_renderPragma (rows : List PragmaRow)
    (hrows : ∀ r ∈ rows, goodField r.1 ∧ goodField r.2.1 ∧ goodField r.2.2) :
    rustLines (renderPragma rows) = rows.map rawPragmaLine := by
  unfold rustLines
  rw [splitChar_renderPragma rows hrows]
  simp only [List.getLast?_concat, List.dropLast_concat]
  have hmap : ∀ l ∈ rows.map rawPragmaLine, stripCR l = l := by
    intro l hl
    obtain ⟨r, hr, rfl⟩ := List.mem_map.mp hl
    obtain ⟨g1, g2, g3⟩ := hrows r hr
    exact stripCR_of_not_mem _
      (not_mem_rawPragmaLine '\r' r g1.2.1 g2.2.1 g3.2.1 (by decide))
  calc (rows.map rawPragmaLine).map stripCR
      = (rows.map rawPragmaLine).map id := List.map_congr_left hmap
    _ = rows.map rawPragmaLine := List.map_id _

/-- Parsing a rendered pragma line recovers the column name. -/
theorem parsePragmaLine_rawPragmaLine (r : PragmaRow)
    (h1 : '|' ∉ r.1) (h2 : '|' ∉ r.2.1) :
    parsePragmaLine (rawPragmaLine r) = some r.2.1 := by
  unfold parsePragmaLine rawPragmaLine
  rw [splitChar_append '|' r.1 _ h1, splitChar_append '|' r.2.1 _ h2]

theorem filterMap_parsePragmaLine :
    ∀ rows : List PragmaRow,
      (∀ r ∈ rows, goodField r.1 ∧ goodField r.2.1 ∧ goodField r.2.2) →
      (rows.map rawPragmaLine).filterMap parsePragmaLine =
        rows.map (fun r => r.2.1) := by
  intro rows
  induction rows with
  | nil => intro _; rfl
  | cons r rows ih =>
    intro hrows
    obtain ⟨g1, g2, _⟩ := hrows r (by simp)
    simp only [List.map_cons, List.filterMap_cons,
      parsePragmaLine_rawPragmaLine r g1.2.2 g2.2.2]
    rw [ih (fun x hx => hrows x (by simp [hx]))]

/-- The column-selection step on rendered pragma output picks exactly the
first column name, in declaration order, containing `block`
case-insensitively. -/
theorem selectBlockColumn_renderPragma (rows : List PragmaRow)
    (hrows : ∀ r ∈ rows, goodField r.1 ∧ goodField r.2.1 ∧ goodField r.2.2) :
    selectBlockColumn (renderPragma rows) =
      (rows.map (fun r => r.2.1)).find? nameContainsBlock := by
  unfold selectBlockColumn
  rw [rustLines_renderPragma rows hrows, filterMap_parsePragmaLine rows hrows]

theorem selectQuery_ne_masterQuery (col : RStr) :
    ¬(selectQuery col = masterQuery) := by
  intro h
  have e1 : (selectQuery col).get? 7 = some '"' := rfl
  have e2 : masterQuery.get? 7 = some '1' := rfl
  rw [h, e2] at e1
  exact absurd e1 (by decide)

theorem selectQuery_ne_pragmaQuery (col : RStr) :
    ¬(selectQuery col = pragmaQuery) := by
  intro h
  have e1 : (selectQuery col).get? 0 = some 'S' := rfl
  have e2 : pragmaQuery.get? 0 = some 'P' := rfl
  rw [h, e2] at e1
  exact absurd e1 (by decide)

/-- Evaluation of the planner probe against a snapshot with no `sync_status`
table. -/
theorem glsb_envFor_noTable (rows : List PragmaRow) (ds : RStr) :
    get_last_synced_block (envFor true false rows ds) = none := by
  have ht0 : (true && !(trimChars ([] : RStr)).isEmpty) = false := by decide
  simp [get_last_synced_block, envFor, ht0]

/-- Evaluation of the planner probe against a snapshot with a `sync_status`
table whose pragma rows are well formed: the result is the parse of the
value-query stdout when some column name contains `block`, absent
otherwise. -/
theorem glsb_envFor_table (rows : List PragmaRow) (ds : RStr)
    (hrows : ∀ r ∈ rows, goodField r.1 ∧ goodField r.2.1 ∧ goodField r.2.2) :
    get_last_synced_block (envFor true true rows ds) =
      match (rows.map (fun r => r.2.1)).find? nameContainsBlock with
      | none => none
      | some _ => parseU64 (trimChars ds) := by
  have hsel := selectBlockColumn_renderPragma rows hrows
  have hqm : ¬(pragmaQuery = masterQuery) := by decide
  have ht1 : (true && !(trimChars ['1', '\n']).isEmpty) = true := by decide
  cases hfind : (rows.map (fun r => r.2.1)).find? nameContainsBlock with
  | none =>
    rw [hfind] at hsel
    simp [get_last_synced_block, envFor, hqm, hsel, ht1]
  | some col =>
    rw [hfind] at hsel
    have hm := selectQuery_ne_masterQuery col
    have hp := selectQuery_ne_pragmaQuery col
    simp [get_last_synced_block, envFor, hqm, hsel, ht1, hm, hp]

/-! ## Claim C4 -/

/-- Claim C4: with no snapshot file the plan has both progress fields
absent; for a snapshot whose state table's selected block column holds last
value V (the value query prints a string parsing to V), the plan has
`last_synced_block = V` and `next_start_block = V + 1`. -/
theorem c4_sync_plan :
    (∀ (env : DbEnv) (p q : String), env.dbExists = false →
      (plan_sync env p q).last_synced_block = none ∧
      (plan_sync env p q).next_start_block = none) ∧
    (∀ (rows : List PragmaRow) (ds : RStr) (v : Nat) (col : RStr)
      (p q : String),
      (∀ r ∈ rows, goodField r.1 ∧ goodField r.2.1 ∧ goodField r.2.2) →
      (rows.map (fun r => r.2.1)).find? nameContainsBlock = some col →
      parseU64 (trimChars ds) = some v →
      (plan_sync (envFor true true rows ds) p q).last_synced_block = some v ∧
      (plan_sync (envFor true true rows ds) p q).next_start_block =
        some (v + 1)) := by
  constructor
  · intro env p q h
    simp [plan_sync, get_last_synced_block, h]
  · intro rows ds v col p q hrows hfind hparse
    have hv := glsb_envFor_table rows ds hrows
    rw [hfind] at hv
    simp [plan_sync, hv, hparse]

/-- Claim C4 witness: a missing snapshot yields an absent plan; a
`sync_status` table with columns `id`, `last_block` and stdout `123` yields
last = 123, next = 124. -/
theorem c4_sync_plan_witness :
    (({ dbExists := false, run := fun _ => CmdOut.ioErr } : DbEnv).dbExists
        = false ∧
      (plan_sync { dbExists := false, run := fun _ => CmdOut.ioErr } "p" "q").last_synced_block = none ∧
      (plan_sync { dbExists := false, run := fun _ => CmdOut.ioErr } "p" "q").next_start_block = none) ∧
    ((plan_sync (envFor true true
        [("0".toList, "id".toList, "INTEGER".toList),
         ("1".toList, "last_block".toList, "INTEGER".toList)]
        ("123\n".toList)) "p" "q").last_synced_block = some 123 ∧
      (plan_sync (envFor true true
        [("0".toList, "id".toList, "INTEGER".toList),
         ("1".toList, "last_block".toList, "INTEGER".toList)]
        ("123\n".toList)) "p" "q").next_start_block = some 124) :=
  ⟨⟨rfl, c4_sync_plan.1 { dbExists := false, run := fun _ => CmdOut.ioErr }
      "p" "q" rfl⟩,
    c4_sync_plan.2
      [("0".toList, "id".toList, "INTEGER".toList),
       ("1".toList, "last_block".toList, "INTEGER".toList)]
      ("123\n".toList) 123 ("last_block".toList) "p" "q"
      (by decide) (by decide) (by decide)⟩

/-! ## Claim C6 -/

/-- Claim C6: the planner picks, from the state table's enumerated columns,
the first one in declaration order whose name contains `block`
case-insensitively; with no state table, or no such column, the plan
reports absent progress. -/
theorem c6_block_column_choice (rows : List PragmaRow) (ds : RStr)
    (p q : String)
    (hrows : ∀ r ∈ rows, goodField r.1 ∧ goodField r.2.1 ∧ goodField r.2.2) :
    selectBlockColumn (renderPragma rows) =
      (rows.map (fun r => r.2.1)).find? nameContainsBlock ∧
    ((plan_sync (envFor true false rows ds) p q).last_synced_block = none ∧
      (plan_sync (envFor true false rows ds) p q).next_start_block = none) ∧
    ((rows.map (fun r => r.2.1)).find? nameContainsBlock = none →
      (plan_sync (envFor true true rows ds) p q).last_synced_block = none ∧
      (plan_sync (envFor true true rows ds) p q).next_start_block = none) := by
  refine ⟨selectBlockColumn_renderPragma rows hrows, ?_, ?_⟩
  · simp [plan_sync, glsb_envFor_noTable rows ds]
  · intro hnone
    have hv := glsb_envFor_table rows ds hrows
    rw [hnone] at hv
    simp [plan_sync, hv]

/-- Claim C6 witness: columns `id`, `last_block`, `final_block` — the first
matching column in declaration order (`last_block`) is selected, not a
name-ranked one; and the no-table / no-column cases report absence. -/
theorem c6_block_column_choice_witness :
    (selectBlockColumn (renderPragma
        [("0".toList, "id".toList, "INTEGER".toList),
         ("1".toList, "last_block".toList, "INTEGER".toList),
         ("2".toList, "final_block".toList, "INTEGER".toList)]) =
      ([("0".toList, "id".toList, "INTEGER".toList),
        ("1".toList, "last_block".toList, "INTEGER".toList),
        ("2".toList, "final_block".toList, "INTEGER".toList)].map
          (fun r => r.2.1)).find? nameContainsBlock ∧
      ((plan_sync (envFor true false
          [("0".toList, "id".toList, "INTEGER".toList),
           ("1".toList, "last_block".toList, "INTEGER".toList),
           ("2".toList, "final_block".toList, "INTEGER".toList)]
          ("7\n".toList)) "p" "q").last_synced_block = none ∧
        (plan_sync (envFor true false
          [("0".toList, "id".toList, "INTEGER".toList),
           ("1".toList, "last_block".toList, "INTEGER".toList),
           ("2".toList, "final_block".toList, "INTEGER".toList)]
          ("7\n".toList)) "p" "q").next_start_block = none) ∧
      (([("0".toList, "id".toList, "INTEGER".toList),
         ("1".toList, "last_block".toList, "INTEGER".toList),
         ("2".toList, "final_block".toList, "INTEGER".toList)].map
          (fun r => r.2.1)).find? nameContainsBlock = none →
        (plan_sync (envFor true true
          [("0".toList, "id".toList, "INTEGER".toList),
           ("1".toList, "last_block".toList, "INTEGER".toList),
           ("2".toList, "final_block".toList, "INTEGER".toList)]
          ("7\n".toList)) "p" "q").last_synced_block = none ∧
        (plan_sync (envFor true true
          [("0".toList, "id".toList, "INTEGER".toList),
           ("1".toList, "last_block".toList, "INTEGER".toList),
           ("2".toList, "final_block".toList, "INTEGER".toList)]
          ("7\n".toList)) "p" "q").next_start_block = none)) ∧
    ([("0".toList, "id".toList, "INTEGER".toList),
      ("1".toList, "last_block".toList, "INTEGER".toList),
      ("2".toList, "final_block".toList, "INTEGER".toList)].map
        (fun r => r.2.1)).find? nameContainsBlock = some ("last_block".toList) :=
  ⟨c6_block_column_choice
      [("0".toList, "id".toList, "INTEGER".toList),
       ("1".toList, "last_block".toList, "INTEGER".toList),
       ("2".toList, "final_block".toList, "INTEGER".toList)]
      ("7\n".toList) "p" "q" (by decide),
    by decide⟩

end LocalDbRemote
